import Mathlib

/-!
Verification of the kaymio-app product/platform state management, media store
path handling, and video-duration coercion (src/app.py).

The persisted application state is a JSON document manipulated through Python
dicts.  We shallowly embed Python dicts as association lists over `String`
keys (`Dict α`): Python dict keys are unique, insertion order is preserved,
assigning to an existing key keeps its position, and `pop` removes the key.
JSON leaf values are embedded as the inductive `Json` (numbers as `Int`,
which covers every number the program stores).
-/

/-- A JSON value, as produced by `json.loads` / consumed by `json.dumps`. -/
inductive Json where
  | null : Json
  | bool : Bool → Json
  | num : Int → Json
  | str : String → Json
  | arr : List Json → Json
  | obj : List (String × Json) → Json

/-- A Python dict with string keys, embedded as an association list in
insertion order. -/
abbrev Dict (α : Type) : Type := List (String × α)

/-- Python `d.get(k)` / `d[k]`: the value bound to `k`, if any. -/
def Dict.get? {α : Type} : Dict α → String → Option α
  | [], _ => none
  | kv :: t, k => if kv.1 = k then some kv.2 else Dict.get? t k

/-- Python `d[k] = v`: overwrite in place (keeping the key's position) when the
key exists, append at the end otherwise. -/
def Dict.set {α : Type} : Dict α → String → α → Dict α
  | [], k, v => [(k, v)]
  | kv :: t, k, v => if kv.1 = k then (k, v) :: t else kv :: Dict.set t k v

/-- Python `d.pop(k, None)`: remove the binding of `k`. -/
def Dict.pop {α : Type} : Dict α → String → Dict α
  | [], _ => []
  | kv :: t, k => if kv.1 = k then Dict.pop t k else kv :: Dict.pop t k

/-- Python `d.update(e)`: merge `e` into `d`, new keys override, others kept. -/
def Dict.update {α : Type} (d e : Dict α) : Dict α :=
  e.foldl (fun acc kv => Dict.set acc kv.1 kv.2) d

/-- Python `d.setdefault(k, v)`: insert `k ↦ v` only when `k` is absent. -/
def Dict.setdefault {α : Type} (d : Dict α) (k : String) (v : α) : Dict α :=
  match Dict.get? d k with
  | some _ => d
  | none => d ++ [(k, v)]

/-- The keys of a dict, in order. -/
def Dict.keys {α : Type} (d : Dict α) : List String :=
  d.map Prod.fst

theorem Dict.keys_cons {α : Type} (kv : String × α) (t : Dict α) :
    Dict.keys (kv :: t) = kv.1 :: Dict.keys t := rfl

/-- A dict representable by an actual Python dict: its keys are distinct. -/
def DictNodup {α : Type} (d : Dict α) : Prop :=
  (Dict.keys d).Nodup

instance {α : Type} (d : Dict α) : Decidable (DictNodup d) :=
  inferInstanceAs (Decidable (Dict.keys d).Nodup)

theorem Dict.get?_set_self {α : Type} (d : Dict α) (k : String) (v : α) :
    Dict.get? (Dict.set d k v) k = some v := by
  induction d with
  | nil => simp [Dict.set, Dict.get?]
  | cons kv t ih =>
    by_cases h : kv.1 = k
    · simp [Dict.set, h, Dict.get?]
    · simp [Dict.set, h, Dict.get?, ih]

theorem Dict.get?_set_ne {α : Type} (d : Dict α) {k k' : String} (v : α)
    (h : k' ≠ k) : Dict.get? (Dict.set d k' v) k = Dict.get? d k := by
  induction d with
  | nil => simp [Dict.set, Dict.get?, h]
  | cons kv t ih =>
    by_cases hk : kv.1 = k'
    · simp [Dict.set, hk, Dict.get?, h]
    · simp [Dict.set, hk, Dict.get?, ih]

theorem Dict.set_of_get?_eq {α : Type} {d : Dict α} {k : String} {v : α}
    (h : Dict.get? d k = some v) : Dict.set d k v = d := by
  induction d with
  | nil => simp [Dict.get?] at h
  | cons kv t ih =>
    obtain ⟨k1, v1⟩ := kv
    by_cases hk : k1 = k
    · simp [Dict.get?, hk] at h
      simp [Dict.set, hk, h]
    · simp [Dict.get?, hk] at h
      simp [Dict.set, hk, ih h]

theorem Dict.set_set_self {α : Type} (d : Dict α) (k : String) (v w : α) :
    Dict.set (Dict.set d k v) k w = Dict.set d k w := by
  induction d with
  | nil => simp [Dict.set]
  | cons kv t ih =>
    by_cases hk : kv.1 = k
    · simp [Dict.set, hk]
    · simp [Dict.set, hk, ih]

theorem Dict.update_nil {α : Type} (d : Dict α) : Dict.update d [] = d := rfl

theorem Dict.update_cons {α : Type} (d : Dict α) (kv : String × α) (e : Dict α) :
    Dict.update d (kv :: e) = Dict.update (Dict.set d kv.1 kv.2) e := rfl

theorem Dict.get?_update_not_mem {α : Type} {k : String} {e : Dict α}
    (d : Dict α) (h : k ∉ Dict.keys e) :
    Dict.get? (Dict.update d e) k = Dict.get? d k := by
  induction e generalizing d with
  | nil => rfl
  | cons kv t ih =>
    rw [Dict.keys_cons, List.mem_cons, not_or] at h
    rw [Dict.update_cons, ih _ h.2,
      Dict.get?_set_ne d kv.2 (fun hc => h.1 hc.symm)]

theorem Dict.get?_pop_self {α : Type} (d : Dict α) (k : String) :
    Dict.get? (Dict.pop d k) k = none := by
  induction d with
  | nil => rfl
  | cons kv t ih =>
    by_cases hk : kv.1 = k
    · simp [Dict.pop, hk, ih]
    · simp [Dict.pop, hk, Dict.get?, ih]

theorem Dict.get?_pop_ne {α : Type} (d : Dict α) {k k' : String}
    (h : k' ≠ k) : Dict.get? (Dict.pop d k') k = Dict.get? d k := by
  induction d with
  | nil => rfl
  | cons kv t ih =>
    by_cases hk : kv.1 = k'
    · simp [Dict.pop, hk, Dict.get?, h, ih]
    · simp [Dict.pop, hk, Dict.get?, ih]

theorem Dict.get?_append {α : Type} (d e : Dict α) (k : String) :
    Dict.get? (d ++ e) k =
      match Dict.get? d k with
      | some v => some v
      | none => Dict.get? e k := by
  induction d with
  | nil => simp [Dict.get?]
  | cons kv t ih =>
    by_cases hk : kv.1 = k
    · simp [Dict.get?, hk]
    · simp [Dict.get?, hk, ih]

theorem Dict.update_update_self {α : Type} {e : Dict α} (d : Dict α)
    (h : DictNodup e) : Dict.update (Dict.update d e) e = Dict.update d e := by
  induction e generalizing d with
  | nil => rfl
  | cons kv t ih =>
    rw [DictNodup, Dict.keys_cons, List.nodup_cons] at h
    rw [Dict.update_cons, Dict.update_cons]
    have hget : Dict.get? (Dict.update (Dict.set d kv.1 kv.2) t) kv.1 = some kv.2 := by
      rw [Dict.get?_update_not_mem _ h.1, Dict.get?_set_self]
    rw [Dict.set_of_get?_eq hget]
    exact ih _ h.2

/-!
Application state model (src/app.py)

`_json_safe(data)` is `json.loads(json.dumps(data))`; on JSON-representable
values (which is all the program ever passes) the round trip is the identity.
-/

def _json_safe {α : Type} (data : α) : α := data

/-- Source: `PREVIEW_BINARY_FIELDS` from src/app.py line 54. -/
def PREVIEW_BINARY_FIELDS : List String :=
  ["image_data", "instagram_image_data"]

/-- Source: `_sanitize_preview` (src/app.py lines 71-73): drop the binary fields,
keep everything else. -/
def _sanitize_preview (preview : Dict Json) : Dict Json :=
  _json_safe (preview.filter (fun kv => decide (kv.1 ∉ PREVIEW_BINARY_FIELDS)))

/-- Source: `_empty_app_state` (src/app.py lines 61-62), as the JSON object it
serialises to. -/
def _empty_app_state : Dict Json :=
  [("products", Json.obj []), ("last_product_id", Json.str "")]

/-- Outcome of reading and JSON-parsing the state file in `load_app_state`.
The `try` at src/app.py lines 115-118 catches only `json.JSONDecodeError`
and `OSError`; an exception it does not name — e.g. `UnicodeDecodeError`
when the state file holds invalid UTF-8 bytes, or `RecursionError` on
deeply nested JSON — escapes the handler, which the outcome
`uncaughtError` represents. -/
inductive FileRead where
  | absent : FileRead
  | ioError : FileRead
  | parseError : FileRead
  | uncaughtError : FileRead
  | parsed : Json → FileRead

/-- Source: `load_app_state` (src/app.py lines 111-123): an absent file, a
caught read failure (`OSError`), a caught parse failure
(`json.JSONDecodeError`) or a non-object document yields a fresh empty
state; an object gets the two expected top-level keys defaulted via
`setdefault`; an exception outside the `except` clause propagates,
modelled as `Except.error`. -/
def load_app_state : FileRead → Except Unit (Dict Json)
  | .absent => .ok _empty_app_state
  | .ioError => .ok _empty_app_state
  | .parseError => .ok _empty_app_state
  | .uncaughtError => .error ()
  | .parsed (.obj data) =>
      .ok (Dict.setdefault (Dict.setdefault data "products" (Json.obj []))
        "last_product_id" (Json.str ""))
  | .parsed _ => .ok _empty_app_state

/-- A per-product entry of `state["products"]`.  The program creates entries
as `{"platforms": {}, "assets": {}, "results": {}}` and only ever stores
dicts under these keys; `form_values` and `preview` may be absent. -/
structure ProductEntry where
  form_values : Option (Dict Json)
  preview : Option (Dict Json)
  platforms : Dict (Dict Json)
  assets : Dict Json
  results : Dict Json

/-- Source: `{"platforms": {}, "assets": {}, "results": {}}`, the default entry used
by `update_product_state` (src/app.py line 180). -/
def _default_entry : ProductEntry :=
  ⟨none, none, [], [], []⟩

/-- The in-memory application state: `{"products": ..., "last_product_id": ...}`. -/
structure AppState where
  products : Dict ProductEntry
  last_product_id : String

/-- The state a fresh `_empty_app_state()` denotes. -/
def emptyAppState : AppState :=
  ⟨[], ""⟩

/-- src/app.py line 181-182: `entry["form_values"] = _json_safe(form_values)`,
guarded by `if form_values is not None`. -/
def apply_form_values (entry : ProductEntry) : Option (Dict Json) → ProductEntry
  | some fv => { entry with form_values := some (_json_safe fv) }
  | none => entry

/-- src/app.py line 183-184: `entry["preview"] = _sanitize_preview(preview)`,
guarded by `if preview is not None`. -/
def apply_preview (entry : ProductEntry) : Option (Dict Json) → ProductEntry
  | some pv => { entry with preview := some (_sanitize_preview pv) }
  | none => entry

/-- src/app.py lines 185-188: `if assets:` (falsy for `None` and for `{}`),
then `stored_assets.update(_json_safe(assets))`. -/
def apply_assets (entry : ProductEntry) : Option (Dict Json) → ProductEntry
  | some a =>
      if a.isEmpty then entry
      else { entry with assets := Dict.update entry.assets (_json_safe a) }
  | none => entry

/-- src/app.py lines 189-192: `if results:` then
`stored_results.update(_json_safe(results))`. -/
def apply_results (entry : ProductEntry) : Option (Dict Json) → ProductEntry
  | some r =>
      if r.isEmpty then entry
      else { entry with results := Dict.update entry.results (_json_safe r) }
  | none => entry

/-- The platform loop of src/app.py lines 194-199: for each platform name the
stored snapshot is fetched (default `{}`), `update`d with the payload, and
stored back — a nested shallow merge per platform name. -/
def merge_platform_payloads (stored ps : Dict (Dict Json)) : Dict (Dict Json) :=
  ps.foldl
    (fun acc kv =>
      Dict.set acc kv.1 (Dict.update ((Dict.get? acc kv.1).getD []) (_json_safe kv.2)))
    stored

/-- src/app.py lines 193-199: `if platforms:` then the per-platform merge loop. -/
def apply_platforms (entry : ProductEntry) : Option (Dict (Dict Json)) → ProductEntry
  | some ps =>
      if ps.isEmpty then entry
      else { entry with platforms := merge_platform_payloads entry.platforms ps }
  | none => entry

/-- The entry mutation block of `update_product_state`, in source order:
form_values, preview, assets, results, platforms. -/
def apply_payload (entry : ProductEntry)
    (form_values preview : Option (Dict Json))
    (platforms : Option (Dict (Dict Json)))
    (assets results : Option (Dict Json)) : ProductEntry :=
  apply_platforms
    (apply_results (apply_assets (apply_preview (apply_form_values entry form_values) preview) assets)
      results)
    platforms

/-- Source: `update_product_state` (src/app.py lines 166-201).  Empty product id is
rejected up front; otherwise the entry is upserted and `last_product_id` is
set to the given id, and the state is saved. -/
def update_product_state (st : AppState) (product_id : String)
    (form_values preview : Option (Dict Json))
    (platforms : Option (Dict (Dict Json)))
    (assets results : Option (Dict Json)) : AppState :=
  if product_id = "" then st
  else
    let entry := (Dict.get? st.products product_id).getD _default_entry
    let entry := apply_payload entry form_values preview platforms assets results
    { products := Dict.set st.products product_id entry
      last_product_id := product_id }

/-- Source: `get_product_state` (src/app.py lines 135-137): the stored entry for a
product id; Python returns `{}` when absent, modelled as `none`. -/
def get_product_state (st : AppState) (product_id : String) : Option ProductEntry :=
  Dict.get? st.products product_id

/-- Source: `RESETTABLE_PLATFORMS` (src/app.py line 53). -/
def RESETTABLE_PLATFORMS : List String :=
  ["pinterest", "instagram", "youtube", "tiktok"]

/-- The preview fields popped by the instagram branch of
`reset_product_platform` (src/app.py lines 297-305). -/
def INSTAGRAM_PREVIEW_FIELDS : List String :=
  ["instagram_caption", "instagram_hashtags", "instagram_hashtags_payload",
   "instagram_image_path", "instagram_image_url", "instagram_image_public_url",
   "instagram_image_data"]

/-- The preview fields popped by the youtube branch (src/app.py lines 311-316). -/
def YOUTUBE_PREVIEW_FIELDS : List String :=
  ["youtube_title", "youtube_description", "youtube_keywords",
   "youtube_keywords_payload"]

/-- The preview fields popped by the tiktok branch (src/app.py lines 320-324). -/
def TIKTOK_PREVIEW_FIELDS : List String :=
  ["tiktok_caption", "tiktok_hashtags", "tiktok_hashtags_payload"]

/-- Source: `for field in (...): preview.pop(field, None)`. -/
def popFields (d : Dict Json) (fields : List String) : Dict Json :=
  fields.foldl Dict.pop d

/-- Source: `reset_product_platform` (src/app.py lines 273-333).  In the typed model
every stored entry carries its `platforms`/`assets`/`results` keys, so the
Python `if not entry: return` guard coincides with the entry being absent.
The source's `platform = platform.lower()` runs after the allow-list check,
so it only ever sees one of the four lowercase names and is the identity;
it is omitted here. -/
def reset_product_platform (st : AppState) (product_id platform : String) : AppState :=
  if product_id = "" ∨ platform ∉ RESETTABLE_PLATFORMS then st
  else
    match Dict.get? st.products product_id with
    | none => st
    | some entry =>
      if platform = "pinterest" then
        { products := Dict.pop st.products product_id
          last_product_id :=
            if st.last_product_id = product_id then "" else st.last_product_id }
      else
        let platforms := entry.platforms
        let assets := entry.assets
        let preview := entry.preview.getD []
        let results := entry.results
        if platform = "instagram" then
          let platforms := Dict.pop (Dict.pop platforms "instagram_feed") "instagram_story"
          let preview := popFields preview INSTAGRAM_PREVIEW_FIELDS
          let assets := Dict.pop assets "instagram_image_path"
          { st with
            products := Dict.set st.products product_id
              { entry with
                platforms := platforms, assets := assets,
                preview := some preview, results := results } }
        else if platform = "youtube" then
          let platforms := Dict.pop platforms "youtube"
          let results := Dict.pop results "youtube"
          let preview := popFields preview YOUTUBE_PREVIEW_FIELDS
          { st with
            products := Dict.set st.products product_id
              { entry with
                platforms := platforms, assets := assets,
                preview := some preview, results := results } }
        else if platform = "tiktok" then
          let platforms := Dict.pop platforms "tiktok"
          let results := Dict.pop results "tiktok"
          let preview := popFields preview TIKTOK_PREVIEW_FIELDS
          { st with
            products := Dict.set st.products product_id
              { entry with
                platforms := platforms, assets := assets,
                preview := some preview, results := results } }
        else
          { st with
            products := Dict.set st.products product_id
              { entry with
                platforms := platforms, assets := assets,
                preview := some preview, results := results } }

/-!
Media store path handling (src/app.py lines 357-381)

Filesystem paths are modelled as lists of components of an absolute path
(`["srv", "template_images"]` stands for `/srv/template_images`), and the
filesystem itself as a map from resolved paths to optional file bytes
(symlinks are not modelled, which is the only part of `Path.resolve()`
beyond `..`/`.` normalisation).
-/

/-- Source: `Path.resolve()` applied to `base` extended with `comps`: `..` moves to
the parent (the root is its own parent), `.` and empty components vanish. -/
def resolveFrom (base : List String) (comps : List String) : List String :=
  comps.foldl
    (fun acc c =>
      if c = "" then acc
      else if c = "." then acc
      else if c = ".." then acc.dropLast
      else acc ++ [c])
    base

/-- Split a path string into its `/`-separated components (structurally
recursive equivalent of `str.split("/")`, so that concrete paths evaluate). -/
def splitPathChars : List Char → List Char → List String
  | [], acc => [String.mk acc.reverse]
  | c :: cs, acc =>
      if c = '/' then String.mk acc.reverse :: splitPathChars cs []
      else splitPathChars cs (c :: acc)

/-- The `/`-separated components of a path string. -/
def splitPath (s : String) : List String :=
  splitPathChars s.data []

/-- Whether a path string is absolute (starts with `/`). -/
def isAbsolutePath (s : String) : Bool :=
  match s.data with
  | c :: _ => c = '/'
  | [] => false

/-- Source: `(STORAGE_ROOT / relative_path).resolve()`.  Python `Path` join discards
the left operand when the right operand is absolute. -/
def joinedResolve (root : List String) (relative_path : String) : List String :=
  if isAbsolutePath relative_path then resolveFrom [] (splitPath relative_path)
  else resolveFrom root (splitPath relative_path)

/-- Source: `str(path)` for an absolute path given by its components. -/
def pathString (comps : List String) : String :=
  if comps.isEmpty then "/" else comps.foldl (fun acc c => acc ++ "/" ++ c) ""

/-- Python `s.startswith(p)` (string prefix, no separator awareness —
exactly what the source's containment check does). -/
def startsWithPath (s p : String) : Bool :=
  p.data.isPrefixOf s.data

/-- A resolved path lies inside the storage root when the root's components
lead it (the actual containment the spec's traversal guard promises). -/
def insideRoot (root target : List String) : Bool :=
  root.isPrefixOf target

/-- The two failure modes of `load_stored_media`: `FileNotFoundError`
(missing path / missing file) and `ValueError` (invalid path). -/
inductive MediaError where
  | fileNotFound : String → MediaError
  | valueError : String → MediaError

/-- Source: `load_stored_media` (src/app.py lines 371-381) over a filesystem `fs`
mapping resolved paths to file contents.  The containment check is the
source's `str(target).startswith(str(storage_root))`. -/
def load_stored_media (fs : List String → Option (List Nat))
    (root : List String) (relative_path : String) : Except MediaError (List Nat) :=
  if relative_path = "" then .error (.fileNotFound "Missing image path.")
  else
    let target := joinedResolve root relative_path
    if startsWithPath (pathString target) (pathString root) then
      match fs target with
      | some bytes => .ok bytes
      | none => .error (.fileNotFound relative_path)
    else .error (.valueError "Invalid image path.")

/-!
Video duration coercion (src/app.py lines 56-58 and 1234-1243)
-/

def VIDEO_DURATION_DEFAULT : Int := 8

def VIDEO_DURATION_MIN : Int := 4

def VIDEO_DURATION_MAX : Int := 60

/-- Outcome of Python `int(float(s))` on a string `s`:
* `ok n` — `float(s)` is finite (and not NaN), `n` is its truncation;
* `valueError` — `float(s)` raises `ValueError` (unparsable, e.g. `"abc"`),
  or is NaN so `int()` raises `ValueError`;
* `overflowError` — `float(s)` is infinite (e.g. `"inf"`, `"1e999"`), so
  `int()` raises `OverflowError`. -/
inductive IntFloatOutcome where
  | ok : Int → IntFloatOutcome
  | valueError : IntFloatOutcome
  | overflowError : IntFloatOutcome

/-- The duration block of `generate_platform_video` (src/app.py lines
1239-1243): `try: duration_seconds = int(float(duration_value)) except
(TypeError, ValueError): duration_seconds = VIDEO_DURATION_DEFAULT`, then
`max(VIDEO_DURATION_MIN, min(VIDEO_DURATION_MAX, duration_seconds))`.
`OverflowError` is not in the `except` clause and escapes as `.error ()`. -/
def coerce_video_duration (outcome : IntFloatOutcome) : Except Unit Int :=
  match outcome with
  | .overflowError => .error ()
  | .ok n => .ok (max VIDEO_DURATION_MIN (min VIDEO_DURATION_MAX n))
  | .valueError => .ok (max VIDEO_DURATION_MIN (min VIDEO_DURATION_MAX VIDEO_DURATION_DEFAULT))

/-!
Helper lemmas about the entry-mutation stages
-/

theorem apply_form_values_fv (e : ProductEntry) (o : Option (Dict Json)) :
    (apply_form_values e o).form_values =
      match o with
      | some fv => some (_json_safe fv)
      | none => e.form_values := by
  cases o <;> rfl

theorem apply_form_values_preview (e : ProductEntry) (o : Option (Dict Json)) :
    (apply_form_values e o).preview = e.preview := by
  cases o <;> rfl

theorem apply_form_values_platforms (e : ProductEntry) (o : Option (Dict Json)) :
    (apply_form_values e o).platforms = e.platforms := by
  cases o <;> rfl

theorem apply_form_values_assets (e : ProductEntry) (o : Option (Dict Json)) :
    (apply_form_values e o).assets = e.assets := by
  cases o <;> rfl

theorem apply_form_values_results (e : ProductEntry) (o : Option (Dict Json)) :
    (apply_form_values e o).results = e.results := by
  cases o <;> rfl

theorem apply_preview_pv (e : ProductEntry) (o : Option (Dict Json)) :
    (apply_preview e o).preview =
      match o with
      | some pv => some (_sanitize_preview pv)
      | none => e.preview := by
  cases o <;> rfl

theorem apply_preview_fv (e : ProductEntry) (o : Option (Dict Json)) :
    (apply_preview e o).form_values = e.form_values := by
  cases o <;> rfl

theorem apply_preview_platforms (e : ProductEntry) (o : Option (Dict Json)) :
    (apply_preview e o).platforms = e.platforms := by
  cases o <;> rfl

theorem apply_preview_assets (e : ProductEntry) (o : Option (Dict Json)) :
    (apply_preview e o).assets = e.assets := by
  cases o <;> rfl

theorem apply_preview_results (e : ProductEntry) (o : Option (Dict Json)) :
    (apply_preview e o).results = e.results := by
  cases o <;> rfl

theorem apply_assets_assets (e : ProductEntry) (o : Option (Dict Json)) :
    (apply_assets e o).assets =
      match o with
      | some a =>
          if a.isEmpty then e.assets else Dict.update e.assets (_json_safe a)
      | none => e.assets := by
  cases o with
  | none => rfl
  | some a => by_cases h : a.isEmpty <;> simp [apply_assets, h]

theorem apply_assets_fv (e : ProductEntry) (o : Option (Dict Json)) :
    (apply_assets e o).form_values = e.form_values := by
  cases o with
  | none => rfl
  | some a => by_cases h : a.isEmpty <;> simp [apply_assets, h]

theorem apply_assets_preview (e : ProductEntry) (o : Option (Dict Json)) :
    (apply_assets e o).preview = e.preview := by
  cases o with
  | none => rfl
  | some a => by_cases h : a.isEmpty <;> simp [apply_assets, h]

theorem apply_assets_platforms (e : ProductEntry) (o : Option (Dict Json)) :
    (apply_assets e o).platforms = e.platforms := by
  cases o with
  | none => rfl
  | some a => by_cases h : a.isEmpty <;> simp [apply_assets, h]

theorem apply_assets_results (e : ProductEntry) (o : Option (Dict Json)) :
    (apply_assets e o).results = e.results := by
  cases o with
  | none => rfl
  | some a => by_cases h : a.isEmpty <;> simp [apply_assets, h]

theorem apply_results_results (e : ProductEntry) (o : Option (Dict Json)) :
    (apply_results e o).results =
      match o with
      | some r =>
          if r.isEmpty then e.results else Dict.update e.results (_json_safe r)
      | none => e.results := by
  cases o with
  | none => rfl
  | some r => by_cases h : r.isEmpty <;> simp [apply_results, h]

theorem apply_results_fv (e : ProductEntry) (o : Option (Dict Json)) :
    (apply_results e o).form_values = e.form_values := by
  cases o with
  | none => rfl
  | some r => by_cases h : r.isEmpty <;> simp [apply_results, h]

theorem apply_results_preview (e : ProductEntry) (o : Option (Dict Json)) :
    (apply_results e o).preview = e.preview := by
  cases o with
  | none => rfl
  | some r => by_cases h : r.isEmpty <;> simp [apply_results, h]

theorem apply_results_platforms (e : ProductEntry) (o : Option (Dict Json)) :
    (apply_results e o).platforms = e.platforms := by
  cases o with
  | none => rfl
  | some r => by_cases h : r.isEmpty <;> simp [apply_results, h]

theorem apply_results_assets (e : ProductEntry) (o : Option (Dict Json)) :
    (apply_results e o).assets = e.assets := by
  cases o with
  | none => rfl
  | some r => by_cases h : r.isEmpty <;> simp [apply_results, h]

theorem apply_platforms_ps (e : ProductEntry) (o : Option (Dict (Dict Json))) :
    (apply_platforms e o).platforms =
      match o with
      | some ps =>
          if ps.isEmpty then e.platforms
          else merge_platform_payloads e.platforms ps
      | none => e.platforms := by
  cases o with
  | none => rfl
  | some ps => by_cases h : ps.isEmpty <;> simp [apply_platforms, h]

theorem apply_platforms_fv (e : ProductEntry) (o : Option (Dict (Dict Json))) :
    (apply_platforms e o).form_values = e.form_values := by
  cases o with
  | none => rfl
  | some ps => by_cases h : ps.isEmpty <;> simp [apply_platforms, h]

theorem apply_platforms_preview (e : ProductEntry) (o : Option (Dict (Dict Json))) :
    (apply_platforms e o).preview = e.preview := by
  cases o with
  | none => rfl
  | some ps => by_cases h : ps.isEmpty <;> simp [apply_platforms, h]

theorem apply_platforms_assets (e : ProductEntry) (o : Option (Dict (Dict Json))) :
    (apply_platforms e o).assets = e.assets := by
  cases o with
  | none => rfl
  | some ps => by_cases h : ps.isEmpty <;> simp [apply_platforms, h]

theorem apply_platforms_results (e : ProductEntry) (o : Option (Dict (Dict Json))) :
    (apply_platforms e o).results = e.results := by
  cases o with
  | none => rfl
  | some ps => by_cases h : ps.isEmpty <;> simp [apply_platforms, h]

theorem ProductEntry.eq_of_fields {p q : ProductEntry}
    (h1 : p.form_values = q.form_values) (h2 : p.preview = q.preview)
    (h3 : p.platforms = q.platforms) (h4 : p.assets = q.assets)
    (h5 : p.results = q.results) : p = q := by
  cases p; cases q; simp_all

theorem AppState.eq_of_parts {s t : AppState}
    (h1 : s.products = t.products)
    (h2 : s.last_product_id = t.last_product_id) : s = t := by
  cases s; cases t; simp_all

theorem apply_payload_fv (e : ProductEntry) (fv pv : Option (Dict Json))
    (ps : Option (Dict (Dict Json))) (a r : Option (Dict Json)) :
    (apply_payload e fv pv ps a r).form_values = (apply_form_values e fv).form_values := by
  simp [apply_payload, apply_platforms_fv, apply_results_fv, apply_assets_fv,
    apply_preview_fv]

theorem apply_payload_pv (e : ProductEntry) (fv pv : Option (Dict Json))
    (ps : Option (Dict (Dict Json))) (a r : Option (Dict Json)) :
    (apply_payload e fv pv ps a r).preview = (apply_preview e pv).preview := by
  simp [apply_payload, apply_platforms_preview, apply_results_preview,
    apply_assets_preview, apply_preview_pv, apply_form_values_preview]

theorem apply_payload_assets (e : ProductEntry) (fv pv : Option (Dict Json))
    (ps : Option (Dict (Dict Json))) (a r : Option (Dict Json)) :
    (apply_payload e fv pv ps a r).assets = (apply_assets e a).assets := by
  simp [apply_payload, apply_platforms_assets, apply_results_assets,
    apply_assets_assets, apply_preview_assets, apply_form_values_assets]

theorem apply_payload_results (e : ProductEntry) (fv pv : Option (Dict Json))
    (ps : Option (Dict (Dict Json))) (a r : Option (Dict Json)) :
    (apply_payload e fv pv ps a r).results = (apply_results e r).results := by
  simp [apply_payload, apply_platforms_results, apply_results_results,
    apply_assets_results, apply_preview_results, apply_form_values_results]

theorem apply_payload_ps (e : ProductEntry) (fv pv : Option (Dict Json))
    (ps : Option (Dict (Dict Json))) (a r : Option (Dict Json)) :
    (apply_payload e fv pv ps a r).platforms = (apply_platforms e ps).platforms := by
  simp [apply_payload, apply_platforms_ps, apply_results_platforms,
    apply_assets_platforms, apply_preview_platforms, apply_form_values_platforms]

theorem merge_platform_payloads_nil (stored : Dict (Dict Json)) :
    merge_platform_payloads stored [] = stored := rfl

theorem merge_platform_payloads_cons (stored : Dict (Dict Json))
    (kv : String × Dict Json) (t : Dict (Dict Json)) :
    merge_platform_payloads stored (kv :: t) =
      merge_platform_payloads
        (Dict.set stored kv.1
          (Dict.update ((Dict.get? stored kv.1).getD []) (_json_safe kv.2)))
        t := rfl

theorem get?_merge_not_mem {k : String} {ps : Dict (Dict Json)}
    (stored : Dict (Dict Json)) (h : k ∉ Dict.keys ps) :
    Dict.get? (merge_platform_payloads stored ps) k = Dict.get? stored k := by
  induction ps generalizing stored with
  | nil => rfl
  | cons kv t ih =>
    rw [Dict.keys_cons, List.mem_cons, not_or] at h
    rw [merge_platform_payloads_cons, ih _ h.2,
      Dict.get?_set_ne stored _ (fun hc => h.1 hc.symm)]

theorem merge_merge_self {ps : Dict (Dict Json)} (stored : Dict (Dict Json))
    (houter : DictNodup ps) (hinner : ∀ kv ∈ ps, DictNodup kv.2) :
    merge_platform_payloads (merge_platform_payloads stored ps) ps =
      merge_platform_payloads stored ps := by
  induction ps generalizing stored with
  | nil => rfl
  | cons kv t ih =>
    rw [DictNodup, Dict.keys_cons, List.nodup_cons] at houter
    rw [merge_platform_payloads_cons, merge_platform_payloads_cons]
    simp only [_json_safe]
    have hget :
        Dict.get?
          (merge_platform_payloads
            (Dict.set stored kv.1
              (Dict.update ((Dict.get? stored kv.1).getD []) kv.2)) t)
          kv.1 =
        some (Dict.update ((Dict.get? stored kv.1).getD []) kv.2) := by
      rw [get?_merge_not_mem _ houter.1, Dict.get?_set_self]
    rw [hget]
    simp only [Option.getD_some]
    rw [Dict.update_update_self _ (hinner kv (List.mem_cons_self kv t)),
      Dict.set_of_get?_eq hget]
    exact ih _ houter.2 (fun kv2 h2 => hinner kv2 (List.mem_cons_of_mem kv h2))

theorem apply_payload_idem (e : ProductEntry) (fv pv : Option (Dict Json))
    (ps : Option (Dict (Dict Json))) (a r : Option (Dict Json))
    (ha : ∀ d, a = some d → DictNodup d)
    (hr : ∀ d, r = some d → DictNodup d)
    (hps : ∀ d, ps = some d → DictNodup d ∧ ∀ kv ∈ d, DictNodup kv.2) :
    apply_payload (apply_payload e fv pv ps a r) fv pv ps a r =
      apply_payload e fv pv ps a r := by
  apply ProductEntry.eq_of_fields
  · rw [apply_payload_fv, apply_form_values_fv, apply_payload_fv, apply_form_values_fv]
    cases fv <;> simp
  · rw [apply_payload_pv, apply_preview_pv, apply_payload_pv, apply_preview_pv]
    cases pv <;> simp
  · rw [apply_payload_ps, apply_platforms_ps, apply_payload_ps, apply_platforms_ps]
    cases ps with
    | none => rfl
    | some ps0 =>
      by_cases h : ps0.isEmpty
      · simp [h]
      · simp only [h, if_false]
        exact merge_merge_self e.platforms (hps ps0 rfl).1 (hps ps0 rfl).2
  · rw [apply_payload_assets, apply_assets_assets, apply_payload_assets,
      apply_assets_assets]
    cases a with
    | none => rfl
    | some a0 =>
      by_cases h : a0.isEmpty
      · simp [h]
      · simp only [h, if_false]
        exact Dict.update_update_self e.assets (ha a0 rfl)
  · rw [apply_payload_results, apply_results_results, apply_payload_results,
      apply_results_results]
    cases r with
    | none => rfl
    | some r0 =>
      by_cases h : r0.isEmpty
      · simp [h]
      · simp only [h, if_false]
        exact Dict.update_update_self e.results (hr r0 rfl)

theorem update_product_state_ne (st : AppState) {p : String}
    (fv pv : Option (Dict Json)) (ps : Option (Dict (Dict Json)))
    (a r : Option (Dict Json)) (hp : p ≠ "") :
    update_product_state st p fv pv ps a r =
      { products :=
          Dict.set st.products p
            (apply_payload ((Dict.get? st.products p).getD _default_entry) fv pv ps a r)
        last_product_id := p } := by
  simp [update_product_state, hp]

theorem get?_update_product_state_self (st : AppState) {p : String}
    (fv pv : Option (Dict Json)) (ps : Option (Dict (Dict Json)))
    (a r : Option (Dict Json)) (hp : p ≠ "") :
    Dict.get? (update_product_state st p fv pv ps a r).products p =
      some (apply_payload ((Dict.get? st.products p).getD _default_entry) fv pv ps a r) := by
  rw [update_product_state_ne st fv pv ps a r hp]
  exact Dict.get?_set_self _ _ _

theorem get?_sanitize (pv : Dict Json) (k : String) :
    Dict.get? (_sanitize_preview pv) k =
      if k ∈ PREVIEW_BINARY_FIELDS then none else Dict.get? pv k := by
  induction pv with
  | nil => simp [_sanitize_preview, _json_safe, Dict.get?]
  | cons kv t ih =>
    simp only [_sanitize_preview, _json_safe, List.filter_cons, decide_not] at ih ⊢
    by_cases hc : kv.1 ∈ PREVIEW_BINARY_FIELDS
    · rw [if_neg (by simp [hc])]
      rw [ih]
      by_cases hck : k ∈ PREVIEW_BINARY_FIELDS
      · simp [hck]
      · have hk : kv.1 ≠ k := fun h => hck (h ▸ hc)
        simp [hck, Dict.get?, hk]
    · rw [if_pos (by simp [hc])]
      by_cases hk : kv.1 = k
      · subst hk
        simp [Dict.get?, hc]
      · simp [Dict.get?, hk, ih]

theorem get?_popFields (d : Dict Json) (fields : List String) (k : String) :
    Dict.get? (popFields d fields) k =
      if k ∈ fields then none else Dict.get? d k := by
  induction fields generalizing d with
  | nil => simp [popFields]
  | cons f t ih =>
    rw [show popFields d (f :: t) = popFields (Dict.pop d f) t from rfl, ih]
    by_cases hm : k ∈ t
    · simp [hm]
    · by_cases hf : f = k
      · subst hf
        simp [hm, Dict.get?_pop_self]
      · simp [hm, hf, Ne.symm hf, Dict.get?_pop_ne d hf]

theorem reset_pinterest_eq (st : AppState) {p : String} (hp : p ≠ "")
    {e : ProductEntry} (he : Dict.get? st.products p = some e) :
    reset_product_platform st p "pinterest" =
      { products := Dict.pop st.products p
        last_product_id :=
          if st.last_product_id = p then "" else st.last_product_id } := by
  have hm : "pinterest" ∈ RESETTABLE_PLATFORMS := by decide
  simp [reset_product_platform, hp, hm, he]

theorem reset_instagram_eq (st : AppState) {p : String} (hp : p ≠ "")
    {e : ProductEntry} (he : Dict.get? st.products p = some e) :
    reset_product_platform st p "instagram" =
      { st with
        products :=
          Dict.set st.products p
            { e with
              platforms := Dict.pop (Dict.pop e.platforms "instagram_feed") "instagram_story"
              preview := some (popFields (e.preview.getD []) INSTAGRAM_PREVIEW_FIELDS)
              assets := Dict.pop e.assets "instagram_image_path" } } := by
  have hm : "instagram" ∈ RESETTABLE_PLATFORMS := by decide
  have hne : ¬("instagram" = "pinterest") := by decide
  simp [reset_product_platform, hp, hm, he, hne]

theorem reset_youtube_eq (st : AppState) {p : String} (hp : p ≠ "")
    {e : ProductEntry} (he : Dict.get? st.products p = some e) :
    reset_product_platform st p "youtube" =
      { st with
        products :=
          Dict.set st.products p
            { e with
              platforms := Dict.pop e.platforms "youtube"
              results := Dict.pop e.results "youtube"
              preview := some (popFields (e.preview.getD []) YOUTUBE_PREVIEW_FIELDS) } } := by
  have hm : "youtube" ∈ RESETTABLE_PLATFORMS := by decide
  have hne1 : ¬("youtube" = "pinterest") := by decide
  have hne2 : ¬("youtube" = "instagram") := by decide
  simp [reset_product_platform, hp, hm, he, hne1, hne2]

theorem reset_tiktok_eq (st : AppState) {p : String} (hp : p ≠ "")
    {e : ProductEntry} (he : Dict.get? st.products p = some e) :
    reset_product_platform st p "tiktok" =
      { st with
        products :=
          Dict.set st.products p
            { e with
              platforms := Dict.pop e.platforms "tiktok"
              results := Dict.pop e.results "tiktok"
              preview := some (popFields (e.preview.getD []) TIKTOK_PREVIEW_FIELDS) } } := by
  have hm : "tiktok" ∈ RESETTABLE_PLATFORMS := by decide
  have hne1 : ¬("tiktok" = "pinterest") := by decide
  have hne2 : ¬("tiktok" = "instagram") := by decide
  have hne3 : ¬("tiktok" = "youtube") := by decide
  simp [reset_product_platform, hp, hm, he, hne1, hne2, hne3]

theorem reset_not_resettable (st : AppState) (p pl : String)
    (h : pl ∉ RESETTABLE_PLATFORMS) :
    reset_product_platform st p pl = st := by
  simp [reset_product_platform, h]

theorem reset_absent (st : AppState) (p pl : String)
    (h : Dict.get? st.products p = none) :
    reset_product_platform st p pl = st := by
  by_cases hp : p = ""
  · simp [reset_product_platform, hp]
  · by_cases hm : pl ∈ RESETTABLE_PLATFORMS
    · simp [reset_product_platform, hp, hm, h]
    · simp [reset_product_platform, hp, hm]

theorem reset_empty_id (st : AppState) (pl : String) :
    reset_product_platform st "" pl = st := by
  simp [reset_product_platform]

/-!
Claim theorems
-/

/-- Claim C10: calling `update_product_state` with an empty product id is a
complete no-op — for every payload the application state is left exactly
unchanged (and, the model returning the untouched state, nothing is saved). -/
theorem update_product_state_empty_id_noop (st : AppState)
    (fv pv : Option (Dict Json)) (ps : Option (Dict (Dict Json)))
    (a r : Option (Dict Json)) :
    update_product_state st "" fv pv ps a r = st := by
  simp [update_product_state]

/-- Claim C2: for every product id `p` present in the state,
`reset_product_platform p "pinterest"` removes the entire product entry (a
subsequent lookup returns an absent entry) and clears `last_product_id`
when it previously equalled `p`. -/
theorem reset_pinterest_removes_entry (st : AppState) {p : String}
    (hp : p ≠ "") (hpresent : (Dict.get? st.products p).isSome = true) :
    get_product_state (reset_product_platform st p "pinterest") p = none
    ∧ (st.last_product_id = p →
        (reset_product_platform st p "pinterest").last_product_id = "") := by
  obtain ⟨e, he⟩ := Option.isSome_iff_exists.mp hpresent
  rw [reset_pinterest_eq st hp he]
  constructor
  · simp [get_product_state, Dict.get?_pop_self]
  · intro hlast
    simp [hlast]

/-- Witness for C2 at a concrete one-product state. -/
theorem reset_pinterest_removes_entry_witness :
    (("p1" : String) ≠ "")
    ∧ (Dict.get? (AppState.mk [("p1", _default_entry)] "p1").products "p1").isSome = true
    ∧ (get_product_state
          (reset_product_platform (AppState.mk [("p1", _default_entry)] "p1") "p1" "pinterest")
          "p1" = none
        ∧ ((AppState.mk [("p1", _default_entry)] "p1").last_product_id = "p1" →
            (reset_product_platform (AppState.mk [("p1", _default_entry)] "p1") "p1"
                "pinterest").last_product_id = "")) :=
  ⟨by decide, rfl, reset_pinterest_removes_entry _ (by decide) rfl⟩

/-- Claim C7: the preview stored by `update_product_state` is the sanitised
preview, which never contains the binary fields `image_data` and
`instagram_image_data` while keeping every other preview key. -/
theorem preview_binary_not_persisted (st : AppState) {p : String}
    (fv : Option (Dict Json)) (pv : Dict Json)
    (ps : Option (Dict (Dict Json))) (a r : Option (Dict Json)) (hp : p ≠ "") :
    ∃ e', Dict.get? (update_product_state st p fv (some pv) ps a r).products p = some e'
      ∧ e'.preview = some (_sanitize_preview pv)
      ∧ Dict.get? (_sanitize_preview pv) "image_data" = none
      ∧ Dict.get? (_sanitize_preview pv) "instagram_image_data" = none
      ∧ (∀ k, k ∉ PREVIEW_BINARY_FIELDS →
          Dict.get? (_sanitize_preview pv) k = Dict.get? pv k) := by
  refine ⟨_, get?_update_product_state_self st fv (some pv) ps a r hp, ?_, ?_, ?_, ?_⟩
  · rw [apply_payload_pv, apply_preview_pv]
  · rw [get?_sanitize, if_pos (by decide)]
  · rw [get?_sanitize, if_pos (by decide)]
  · intro k hk
    rw [get?_sanitize, if_neg hk]

/-- Witness for C7 on a preview holding both binary fields and a text field. -/
theorem preview_binary_not_persisted_witness :
    (("x" : String) ≠ "")
    ∧ ∃ e', Dict.get?
          (update_product_state emptyAppState "x" none
            (some [("image_data", Json.str "zzz"), ("caption", Json.str "c"),
                   ("instagram_image_data", Json.str "www")]) none none none).products
          "x" = some e'
        ∧ e'.preview = some (_sanitize_preview
            [("image_data", Json.str "zzz"), ("caption", Json.str "c"),
             ("instagram_image_data", Json.str "www")])
        ∧ Dict.get? (_sanitize_preview
            [("image_data", Json.str "zzz"), ("caption", Json.str "c"),
             ("instagram_image_data", Json.str "www")]) "image_data" = none
        ∧ Dict.get? (_sanitize_preview
            [("image_data", Json.str "zzz"), ("caption", Json.str "c"),
             ("instagram_image_data", Json.str "www")]) "instagram_image_data" = none
        ∧ (∀ k, k ∉ PREVIEW_BINARY_FIELDS →
            Dict.get? (_sanitize_preview
              [("image_data", Json.str "zzz"), ("caption", Json.str "c"),
               ("instagram_image_data", Json.str "www")]) k =
            Dict.get? [("image_data", Json.str "zzz"), ("caption", Json.str "c"),
                       ("instagram_image_data", Json.str "www")] k) :=
  ⟨by decide, preview_binary_not_persisted emptyAppState none _ none none none (by decide)⟩

/-- Claim C4: platform snapshots are upserted by nested shallow merge — on
the spec's concrete example the old `video_path` is preserved and `status`
overridden — while `form_values` and `preview` are replaced wholesale. -/
theorem platform_merge_semantics :
    (∃ e', Dict.get?
        (update_product_state
          (AppState.mk
            [("p1",
              ProductEntry.mk none none
                [("tiktok", [("status", Json.str "pending"), ("video_path", Json.str "a")])]
                [] [])]
            "p1")
          "p1" none none (some [("tiktok", [("status", Json.str "published")])]) none none).products
        "p1" = some e'
      ∧ Dict.get? e'.platforms "tiktok" =
          some [("status", Json.str "published"), ("video_path", Json.str "a")])
    ∧ (∀ (st : AppState) (p : String) (fv pv : Dict Json), p ≠ "" →
        ∃ e', Dict.get? (update_product_state st p (some fv) (some pv) none none none).products p
            = some e'
          ∧ e'.form_values = some (_json_safe fv)
          ∧ e'.preview = some (_sanitize_preview pv)) := by
  constructor
  · exact ⟨_, rfl, rfl⟩
  · intro st p fv pv hp
    refine ⟨_, get?_update_product_state_self st (some fv) (some pv) none none none hp, ?_, ?_⟩
    · rw [apply_payload_fv, apply_form_values_fv]
    · rw [apply_payload_pv, apply_preview_pv]

/-- Witness for the quantified (wholesale-replacement) part of C4. -/
theorem platform_merge_semantics_witness :
    ∃ e', Dict.get?
        (update_product_state emptyAppState "w4" (some [("title", Json.str "t")])
          (some [("caption", Json.str "c")]) none none none).products "w4" = some e'
      ∧ e'.form_values = some (_json_safe [("title", Json.str "t")])
      ∧ e'.preview = some (_sanitize_preview [("caption", Json.str "c")]) :=
  platform_merge_semantics.2 emptyAppState "w4" _ _ (by decide)

/-- Claim C5: `update_product_state` is idempotent — repeating a call with
the identical payload (whose dicts have distinct keys, as every Python dict
does) leaves the stored application state exactly as after the first call. -/
theorem update_product_state_idempotent (st : AppState) {p : String}
    (fv pv : Option (Dict Json)) (ps : Option (Dict (Dict Json)))
    (a r : Option (Dict Json)) (hp : p ≠ "")
    (ha : ∀ d, a = some d → DictNodup d)
    (hr : ∀ d, r = some d → DictNodup d)
    (hps : ∀ d, ps = some d → DictNodup d ∧ ∀ kv ∈ d, DictNodup kv.2) :
    update_product_state (update_product_state st p fv pv ps a r) p fv pv ps a r
      = update_product_state st p fv pv ps a r := by
  have hg := get?_update_product_state_self st fv pv ps a r hp
  rw [update_product_state_ne (update_product_state st p fv pv ps a r) fv pv ps a r hp, hg]
  simp only [Option.getD_some]
  rw [apply_payload_idem ((Dict.get? st.products p).getD _default_entry) fv pv ps a r ha hr hps]
  rw [update_product_state_ne st fv pv ps a r hp]
  simp [Dict.set_set_self]

/-- Witness for C5 with the spec's youtube-pending payload. -/
theorem update_product_state_idempotent_witness :
    update_product_state
        (update_product_state emptyAppState "p5" none none
          (some [("youtube", [("status", Json.str "pending")])]) none none)
        "p5" none none (some [("youtube", [("status", Json.str "pending")])]) none none
      = update_product_state emptyAppState "p5" none none
          (some [("youtube", [("status", Json.str "pending")])]) none none :=
  update_product_state_idempotent emptyAppState none none
    (some [("youtube", [("status", Json.str "pending")])]) none none
    (by decide)
    (fun d h => by cases h)
    (fun d h => by cases h)
    (fun d h => by cases h; exact ⟨by decide, by decide⟩)

/-- Claim C3: resetting instagram for a product whose assets hold
`original_image_path` keeps that asset, removes both instagram platform
snapshots, all seven instagram-prefixed preview fields the application
stores, and the `instagram_image_path` asset pointer, and leaves every
other platform snapshot and all results untouched. -/
theorem reset_instagram_frame (st : AppState) {p : String} {e : ProductEntry}
    (hp : p ≠ "") (he : Dict.get? st.products p = some e)
    (_ho : (Dict.get? e.assets "original_image_path").isSome = true) :
    ∃ e', Dict.get? (reset_product_platform st p "instagram").products p = some e'
      ∧ Dict.get? e'.assets "original_image_path" = Dict.get? e.assets "original_image_path"
      ∧ Dict.get? e'.platforms "instagram_feed" = none
      ∧ Dict.get? e'.platforms "instagram_story" = none
      ∧ (∀ f ∈ INSTAGRAM_PREVIEW_FIELDS, Dict.get? (e'.preview.getD []) f = none)
      ∧ Dict.get? e'.assets "instagram_image_path" = none
      ∧ (∀ q, q ≠ "instagram_feed" → q ≠ "instagram_story" →
          Dict.get? e'.platforms q = Dict.get? e.platforms q)
      ∧ e'.results = e.results := by
  rw [reset_instagram_eq st hp he]
  refine ⟨_, Dict.get?_set_self _ _ _, ?_, ?_, ?_, ?_, ?_, ?_, rfl⟩
  · exact Dict.get?_pop_ne e.assets (by decide)
  · rw [Dict.get?_pop_ne _ (by decide), Dict.get?_pop_self]
  · exact Dict.get?_pop_self _ _
  · intro f hf
    rw [Option.getD_some, get?_popFields, if_pos hf]
  · exact Dict.get?_pop_self _ _
  · intro q h1 h2
    rw [Dict.get?_pop_ne _ (fun hx => h2 hx.symm),
      Dict.get?_pop_ne _ (fun hx => h1 hx.symm)]

/-- Witness for C3 on a concrete entry carrying instagram and sibling
platform data. -/
theorem reset_instagram_frame_witness :
    (("p3" : String) ≠ "")
    ∧ Dict.get?
        (AppState.mk
          [("p3",
            ProductEntry.mk none
              (some [("instagram_caption", Json.str "c"), ("title", Json.str "t")])
              [("instagram_feed", [("status", Json.str "pending")]),
               ("pinterest", [("status", Json.str "published")])]
              [("original_image_path", Json.str "originals/o.png"),
               ("instagram_image_path", Json.str "generated/i.png")]
              [("pinterest", Json.obj [("pin_id", Json.str "42")])])] "p3").products "p3"
      = some (ProductEntry.mk none
          (some [("instagram_caption", Json.str "c"), ("title", Json.str "t")])
          [("instagram_feed", [("status", Json.str "pending")]),
           ("pinterest", [("status", Json.str "published")])]
          [("original_image_path", Json.str "originals/o.png"),
           ("instagram_image_path", Json.str "generated/i.png")]
          [("pinterest", Json.obj [("pin_id", Json.str "42")])])
    ∧ ∃ e', Dict.get?
          (reset_product_platform
            (AppState.mk
              [("p3",
                ProductEntry.mk none
                  (some [("instagram_caption", Json.str "c"), ("title", Json.str "t")])
                  [("instagram_feed", [("status", Json.str "pending")]),
                   ("pinterest", [("status", Json.str "published")])]
                  [("original_image_path", Json.str "originals/o.png"),
                   ("instagram_image_path", Json.str "generated/i.png")]
                  [("pinterest", Json.obj [("pin_id", Json.str "42")])])] "p3")
            "p3" "instagram").products "p3" = some e'
        ∧ Dict.get? e'.assets "original_image_path" =
            Dict.get? (ProductEntry.mk none
              (some [("instagram_caption", Json.str "c"), ("title", Json.str "t")])
              [("instagram_feed", [("status", Json.str "pending")]),
               ("pinterest", [("status", Json.str "published")])]
              [("original_image_path", Json.str "originals/o.png"),
               ("instagram_image_path", Json.str "generated/i.png")]
              [("pinterest", Json.obj [("pin_id", Json.str "42")])]).assets "original_image_path"
        ∧ Dict.get? e'.platforms "instagram_feed" = none
        ∧ Dict.get? e'.platforms "instagram_story" = none
        ∧ (∀ f ∈ INSTAGRAM_PREVIEW_FIELDS, Dict.get? (e'.preview.getD []) f = none)
        ∧ Dict.get? e'.assets "instagram_image_path" = none
        ∧ (∀ q, q ≠ "instagram_feed" → q ≠ "instagram_story" →
            Dict.get? e'.platforms q =
              Dict.get? (ProductEntry.mk none
                (some [("instagram_caption", Json.str "c"), ("title", Json.str "t")])
                [("instagram_feed", [("status", Json.str "pending")]),
                 ("pinterest", [("status", Json.str "published")])]
                [("original_image_path", Json.str "originals/o.png"),
                 ("instagram_image_path", Json.str "generated/i.png")]
                [("pinterest", Json.obj [("pin_id", Json.str "42")])]).platforms q)
        ∧ e'.results = (ProductEntry.mk none
            (some [("instagram_caption", Json.str "c"), ("title", Json.str "t")])
            [("instagram_feed", [("status", Json.str "pending")]),
             ("pinterest", [("status", Json.str "published")])]
            [("original_image_path", Json.str "originals/o.png"),
             ("instagram_image_path", Json.str "generated/i.png")]
            [("pinterest", Json.obj [("pin_id", Json.str "42")])]).results :=
  ⟨by decide, rfl, reset_instagram_frame _ (by decide) rfl rfl⟩

/-- States reachable from the empty state through the two mutating state
operations of src/app.py. -/
inductive ReachableState : AppState → Prop where
  | init : ReachableState emptyAppState
  | step_update (st : AppState) (p : String) (fv pv : Option (Dict Json))
      (ps : Option (Dict (Dict Json))) (a r : Option (Dict Json)) :
      ReachableState st → ReachableState (update_product_state st p fv pv ps a r)
  | step_reset (st : AppState) (p pl : String) :
      ReachableState st → ReachableState (reset_product_platform st p pl)

/-- The C8 invariant: `last_product_id` is empty or names a stored product. -/
def LastIdValid (st : AppState) : Prop :=
  st.last_product_id = "" ∨ (Dict.get? st.products st.last_product_id).isSome = true

theorem lastIdValid_set (st : AppState) (p : String) (e' : ProductEntry)
    (h : LastIdValid st) :
    LastIdValid { st with products := Dict.set st.products p e' } := by
  rcases h with h | h
  · exact Or.inl h
  · right
    show (Dict.get? (Dict.set st.products p e') st.last_product_id).isSome = true
    by_cases hp : p = st.last_product_id
    · subst hp
      rw [Dict.get?_set_self]
      rfl
    · rw [Dict.get?_set_ne st.products e' hp]
      exact h

/-- Claim C8: starting from the empty state, after every sequence of
`update_product_state` and `reset_product_platform` operations,
`last_product_id` is either empty or a key present in the products map. -/
theorem last_product_id_valid_of_reachable (st : AppState)
    (h : ReachableState st) : LastIdValid st := by
  induction h with
  | init => exact Or.inl rfl
  | step_update st p fv pv ps a r _ ih =>
    by_cases hp : p = ""
    · subst hp
      simpa [update_product_state] using ih
    · rw [update_product_state_ne st fv pv ps a r hp]
      right
      show (Dict.get? (Dict.set st.products p _) p).isSome = true
      rw [Dict.get?_set_self]
      rfl
  | step_reset st p pl _ ih =>
    by_cases hp : p = ""
    · rw [hp, reset_empty_id]
      exact ih
    · by_cases hm : pl ∈ RESETTABLE_PLATFORMS
      · cases hget : Dict.get? st.products p with
        | none =>
          rw [reset_absent st p pl hget]
          exact ih
        | some e =>
          have hfour : pl = "pinterest" ∨ pl = "instagram" ∨ pl = "youtube" ∨ pl = "tiktok" := by
            simpa [RESETTABLE_PLATFORMS] using hm
          rcases hfour with h1 | h1 | h1 | h1 <;> subst h1
          · rw [reset_pinterest_eq st hp hget]
            by_cases hl : st.last_product_id = p
            · left
              simp [hl]
            · rcases ih with h2 | h2
              · left
                simp [hl, h2]
              · right
                show (Dict.get? (Dict.pop st.products p)
                    (if st.last_product_id = p then "" else st.last_product_id)).isSome = true
                rw [if_neg hl, Dict.get?_pop_ne st.products (fun hx => hl hx.symm)]
                exact h2
          · rw [reset_instagram_eq st hp hget]
            exact lastIdValid_set st p _ ih
          · rw [reset_youtube_eq st hp hget]
            exact lastIdValid_set st p _ ih
          · rw [reset_tiktok_eq st hp hget]
            exact lastIdValid_set st p _ ih
      · rw [reset_not_resettable st p pl hm]
        exact ih

/-- Witness for C8 on a short concrete operation sequence. -/
theorem last_product_id_valid_of_reachable_witness :
    LastIdValid
      (reset_product_platform
        (update_product_state emptyAppState "p8" none none
          (some [("tiktok", [("status", Json.str "pending")])]) none none)
        "p8" "tiktok") :=
  last_product_id_valid_of_reachable _
    (ReachableState.step_reset _ "p8" "tiktok"
      (ReachableState.step_update emptyAppState "p8" none none
        (some [("tiktok", [("status", Json.str "pending")])]) none none
        ReachableState.init))

theorem Dict.get?_setdefault_self {α : Type} (d : Dict α) (k : String) (v : α) :
    (Dict.get? (Dict.setdefault d k v) k).isSome = true := by
  unfold Dict.setdefault
  cases hg : Dict.get? d k with
  | some w => simp [hg]
  | none =>
    rw [Dict.get?_append]
    simp [hg, Dict.get?]

theorem Dict.get?_setdefault_of_get? {α : Type} {d : Dict α} {k : String} {v : α}
    (k' : String) (w : α) (h : Dict.get? d k = some v) :
    Dict.get? (Dict.setdefault d k' w) k = some v := by
  unfold Dict.setdefault
  cases hg : Dict.get? d k' with
  | some u => exact h
  | none =>
    rw [Dict.get?_append, h]

/-- Counterexample to C6 as stated: a JSON object missing the expected keys
is not replaced by the fresh empty state — its own content is preserved
and the missing keys are merely defaulted, so the result differs from
`_empty_app_state`.  (The claim's "never raises" also fails, on a decoding
exception the `except` clause does not name; see the amended theorem.) -/
theorem load_app_state_keeps_unknown_keys :
    load_app_state (FileRead.parsed (Json.obj [("foo", Json.num 1)]))
      ≠ Except.ok _empty_app_state := by
  intro h
  have hlen :
      (match load_app_state (FileRead.parsed (Json.obj [("foo", Json.num 1)])) with
        | Except.ok d => d.length
        | Except.error _ => 0) = 3 := rfl
  rw [h] at hlen
  exact absurd hlen (by decide)

/-- Claim C6 (amended): for the outcomes the `except` clause covers — an
absent file, a caught read error (`OSError`), a caught parse error
(`json.JSONDecodeError`) — and for every document that is not a JSON
object, `load_app_state` returns the fresh empty state; a JSON object is
returned with its existing content preserved and the expected top-level
keys defaulted via `setdefault` when missing (the empty object yields
exactly the fresh empty state); but the function is not total: an
exception the `except` clause does not name — e.g. `UnicodeDecodeError`
from a state file with invalid UTF-8, or `RecursionError` on deeply
nested JSON — escapes uncaught, so `load_app_state` can raise. -/
theorem load_app_state_total_behavior :
    load_app_state FileRead.absent = Except.ok _empty_app_state
    ∧ load_app_state FileRead.ioError = Except.ok _empty_app_state
    ∧ load_app_state FileRead.parseError = Except.ok _empty_app_state
    ∧ load_app_state FileRead.uncaughtError = Except.error ()
    ∧ (∀ j : Json, (∀ d, j ≠ Json.obj d) →
        load_app_state (FileRead.parsed j) = Except.ok _empty_app_state)
    ∧ (∀ d : Dict Json, ∃ out,
        load_app_state (FileRead.parsed (Json.obj d)) = Except.ok out
        ∧ (Dict.get? out "products").isSome = true
        ∧ (Dict.get? out "last_product_id").isSome = true
        ∧ ∀ k v, Dict.get? d k = some v → Dict.get? out k = some v)
    ∧ load_app_state (FileRead.parsed (Json.obj [])) = Except.ok _empty_app_state := by
  refine ⟨rfl, rfl, rfl, rfl, ?_, ?_, rfl⟩
  · intro j hj
    cases j
    case obj d => exact absurd rfl (hj d)
    all_goals rfl
  · intro d
    refine ⟨Dict.setdefault (Dict.setdefault d "products" (Json.obj []))
        "last_product_id" (Json.str ""), rfl, ?_, ?_, ?_⟩
    · obtain ⟨x, hx⟩ := Option.isSome_iff_exists.mp
        (Dict.get?_setdefault_self d "products" (Json.obj []))
      rw [Dict.get?_setdefault_of_get? "last_product_id" (Json.str "") hx]
      rfl
    · exact Dict.get?_setdefault_self _ "last_product_id" (Json.str "")
    · intro k v hk
      exact Dict.get?_setdefault_of_get? "last_product_id" (Json.str "")
        (Dict.get?_setdefault_of_get? "products" (Json.obj []) hk)

/-- Witness for C6 (amended) at a non-object document, at the uncaught
decode failure, and at an object carrying a foreign key. -/
theorem load_app_state_total_behavior_witness :
    load_app_state (FileRead.parsed (Json.num 5)) = Except.ok _empty_app_state
    ∧ load_app_state FileRead.uncaughtError = Except.error ()
    ∧ ∃ out, load_app_state (FileRead.parsed (Json.obj [("foo", Json.num 1)])) = Except.ok out
        ∧ (Dict.get? out "products").isSome = true
        ∧ (Dict.get? out "last_product_id").isSome = true
        ∧ ∀ k v, Dict.get? [("foo", Json.num 1)] k = some v → Dict.get? out k = some v :=
  ⟨load_app_state_total_behavior.2.2.2.2.1 (Json.num 5) (fun _d h => Json.noConfusion h),
   load_app_state_total_behavior.2.2.2.1,
   load_app_state_total_behavior.2.2.2.2.2.1 [("foo", Json.num 1)]⟩

/-- Counterexample to C9 as stated: `int(float(s))` raises `OverflowError`
for a string parsing to an infinite float (e.g. `"inf"` or `"1e999"`), and
`except (TypeError, ValueError)` does not catch `OverflowError`, so the
computation raises instead of producing a duration. -/
theorem coerce_video_duration_overflow_raises :
    coerce_video_duration IntFloatOutcome.overflowError = Except.error () := rfl

/-- Claim C9 (amended): for every duration string that does not parse to an
infinite float, the duration used is an integer clamped to
`[VIDEO_DURATION_MIN, VIDEO_DURATION_MAX] = [4, 60]`, with the default `8`
when the string is unparsable, and the computation does not raise; only
infinite-float strings make it raise (an uncaught `OverflowError`). -/
theorem coerce_video_duration_clamped (o : IntFloatOutcome)
    (h : o ≠ IntFloatOutcome.overflowError) :
    ∃ n, coerce_video_duration o = Except.ok n
      ∧ VIDEO_DURATION_MIN ≤ n ∧ n ≤ VIDEO_DURATION_MAX
      ∧ (o = IntFloatOutcome.valueError → n = VIDEO_DURATION_DEFAULT) := by
  cases o with
  | overflowError => exact absurd rfl h
  | valueError => exact ⟨8, rfl, by decide, by decide, fun _ => rfl⟩
  | ok n =>
    refine ⟨max VIDEO_DURATION_MIN (min VIDEO_DURATION_MAX n), rfl, le_max_left _ _, ?_, ?_⟩
    · exact max_le (by decide) (min_le_left _ _)
    · intro hv
      exact IntFloatOutcome.noConfusion hv

/-- Witness for C9 (amended) at an unparsable duration string. -/
theorem coerce_video_duration_clamped_witness :
    IntFloatOutcome.valueError ≠ IntFloatOutcome.overflowError
    ∧ ∃ n, coerce_video_duration IntFloatOutcome.valueError = Except.ok n
        ∧ VIDEO_DURATION_MIN ≤ n ∧ n ≤ VIDEO_DURATION_MAX
        ∧ (IntFloatOutcome.valueError = IntFloatOutcome.valueError →
            n = VIDEO_DURATION_DEFAULT) :=
  ⟨fun h => IntFloatOutcome.noConfusion h,
   coerce_video_duration_clamped IntFloatOutcome.valueError
     (fun h => IntFloatOutcome.noConfusion h)⟩

/-- A concrete deployment for C1: the storage root is
`/srv/template_images`, a sibling directory `/srv/template_images_evil`
holds a secret file, and `/etc/passwd` exists. -/
def demoRoot : List String :=
  ["srv", "template_images"]

/-- The filesystem for the C1 scenario, as a map from resolved absolute
paths to file bytes. -/
def demoFS : List String → Option (List Nat) :=
  fun p =>
    if p = ["srv", "template_images_evil", "secret.png"] then some [42]
    else if p = ["etc", "passwd"] then some [1, 2, 3]
    else none

/-- Claim C1 (code bug evaluation): the containment guard of
`load_stored_media` is `str(target).startswith(str(storage_root))` — a raw
string-prefix test with no separator awareness.  The relative path
`"../template_images_evil/secret.png"` resolves outside the storage root
(it is not led by the root's components), yet the guard accepts it because
`"/srv/template_images_evil/secret.png"` starts with the string
`"/srv/template_images"`, and the bytes of the sibling file are returned —
contradicting the claim that such paths always fail with an invalid-path
error.  The spec's own example `"../../etc/passwd"` is rejected as the
claim describes. -/
theorem load_stored_media_prefix_bypass :
    insideRoot demoRoot (joinedResolve demoRoot "../template_images_evil/secret.png") = false
    ∧ load_stored_media demoFS demoRoot "../template_images_evil/secret.png"
        = Except.ok [42]
    ∧ load_stored_media demoFS demoRoot "../../etc/passwd"
        = Except.error (MediaError.valueError "Invalid image path.") :=
  ⟨rfl, rfl, rfl⟩
